import Mathlib

/-!
Verification of the agent workflow orchestration logic of the `ai-agent`
Next.js demo repository.

The route handlers under `src/app/api/` are shallowly embedded here:

* JavaScript/JSON runtime values are modelled by `JVal` (numbers as
  normalized rationals; `undefined` is modelled as `Option.none` at
  property-access boundaries).
* Outbound calls to the OpenAI provider ("ModelGateway"), to the weather
  service and to `JSON.parse` of provider-authored text are external
  collaborators; they appear as function parameters whose results are
  `Except String`-valued (a `.error` models a thrown JS exception).
* Each handler becomes a total Lean function from the parsed request body
  (an `Except String JVal`, modelling the outcome of `request.json()`) to a
  `HandlerOutcome`, paired with the number of ModelGateway invocations the
  run performs.  A `.thrown` outcome models an exception escaping the
  handler itself.
-/

/-! ## JavaScript value model -/

/-- A JSON/JavaScript runtime value.  Numbers are modelled as rationals
(JS float values relevant to this code base - confidence scores, ids,
coordinates - are all exactly representable).  `undefined` is not a `JVal`;
property access returns `Option JVal` with `none` for `undefined`. -/
inductive JVal where
  | null
  | bool (b : Bool)
  | num (q : Rat)
  | str (s : String)
  | arr (elems : List JVal)
  | obj (fields : List (String × JVal))

/-- Property read `v[k]`: `none` models JS `undefined`.  (In JS, reading a
property of `null` throws; the embedding only ever applies `jGet` where the
source guards against that, or where the enclosing handler would catch the
throw and produce the same rejection.) -/
def jGet (v : JVal) (k : String) : Option JVal :=
  match v with
  | .obj fields => fields.lookup k
  | _ => none

/-- JS truthiness of a possibly-`undefined` value. -/
def jTruthy (v : Option JVal) : Bool :=
  match v with
  | none => false
  | some .null => false
  | some (.bool b) => b
  | some (.num q) => !(q == 0)
  | some (.str s) => !(s == "")
  | some (.arr _) => true
  | some (.obj _) => true

/-- `Array.isArray(v)`. -/
def jIsArray (v : Option JVal) : Bool :=
  match v with
  | some (.arr _) => true
  | _ => false

/-- `typeof v === "string"`. -/
def jIsString (v : Option JVal) : Bool :=
  match v with
  | some (.str _) => true
  | _ => false

/-- Strict equality `v === s` against a string literal. -/
def jStrEq (v : Option JVal) (s : String) : Bool :=
  match v with
  | some (.str t) => t == s
  | _ => false

/-- The elements of an array value (empty for non-arrays). -/
def jElems (v : Option JVal) : List JVal :=
  match v with
  | some (.arr l) => l
  | _ => []

/-- Replace (or append) field `k` of an object, as JS property assignment
does.  Assignment to a non-object is modelled as a no-op (not exercised by
the claims). -/
def setField (k : String) (x : JVal) : List (String × JVal) → List (String × JVal)
  | [] => [(k, x)]
  | (k0, v0) :: rest => if k0 == k then (k0, x) :: rest else (k0, v0) :: setField k x rest

/-- JS property assignment `v[k] = x`. -/
def jSet (v : JVal) (k : String) (x : JVal) : JVal :=
  match v with
  | .obj fields => .obj (setField k x fields)
  | other => other

/-- JS `<` against a number, as used on model-authored fields
(`eventInfoResult.confidenceScore < 0.7`).  `undefined` compares as `NaN`
(always `false`); `null` and booleans coerce to numbers; other shapes are
not exercised by this code base and compare as `false`. -/
def jLtNum (v : Option JVal) (q : Rat) : Bool :=
  match v with
  | some (.num n) => decide (n < q)
  | some .null => decide ((0 : Rat) < q)
  | some (.bool b) => decide ((if b then (1 : Rat) else 0) < q)
  | _ => false

/-- The JS number 0.7 (the chained workflow confidence threshold). -/
def ratSevenTenths : Rat := ⟨7, 10, by decide, by decide⟩

/-- The JS number 0.6 (the routing workflow confidence threshold). -/
def ratThreeFifths : Rat := ⟨3, 5, by decide, by decide⟩

/-- The JS number 0.5 (a below-threshold confidence used as test data). -/
def ratHalf : Rat := ⟨1, 2, by decide, by decide⟩

/-- Embed an integer JS number. -/
def intRat (n : Int) : Rat := ⟨n, 1, by decide, Nat.coprime_one_right _⟩

/-! ## JavaScript string helpers

`toLowerCase`, `trim`, `includes` and `split(/\s+/)` as used by the
knowledge-base matcher.  ASCII is modelled exactly (the knowledge-base
records and all inputs of interest are ASCII). -/

/-- A character matched by the JS regex class `\s` (ASCII part). -/
def jsWs (c : Char) : Bool :=
  c == ' ' || c == '\t' || c == '\n' || c == '\r'

/-- `String.prototype.toLowerCase` (ASCII). -/
def jsToLower (s : String) : String :=
  String.mk (s.data.map Char.toLower)

/-- `String.prototype.trim`. -/
def jsTrim (s : String) : String :=
  String.mk (((s.data.dropWhile jsWs).reverse.dropWhile jsWs).reverse)

/-- Does `hay` start with `needle` (character lists)? -/
def charsStart (hay needle : List Char) : Bool :=
  match hay, needle with
  | _, [] => true
  | [], _ :: _ => false
  | h :: hs, n :: ns => h == n && charsStart hs ns

/-- Does `hay` contain `needle` as a contiguous run (character lists)? -/
def charsHas (hay needle : List Char) : Bool :=
  match hay with
  | [] => needle.isEmpty
  | c :: t => charsStart (c :: t) needle || charsHas t needle

/-- `s.includes(sub)`: substring containment. -/
def jsIncludes (s sub : String) : Bool :=
  charsHas s.data sub.data

/-- Worker for `split(/\s+/)`: `cur` is the (reversed) segment being built,
`inWs` records whether the previous character belonged to a whitespace run
(a run produces a single separator, so further whitespace is skipped). -/
def splitWsAux (l : List Char) (cur : List Char) (inWs : Bool) : List String :=
  match l with
  | [] => [String.mk cur.reverse]
  | c :: rest =>
    if jsWs c then
      if inWs then splitWsAux rest [] true
      else String.mk cur.reverse :: splitWsAux rest [] true
    else splitWsAux rest (c :: cur) false

/-- `s.split(/\s+/)`: segments between maximal whitespace runs, keeping the
leading/trailing empty segment JS produces when the string starts or ends
with whitespace (and `[""].` for the empty string). -/
def jsSplitWs (s : String) : List String :=
  splitWsAux s.data [] false

/-! ## Knowledge-base matching (`src/app/api/kbTool/route.ts`) -/

namespace KB

/-- A record of the knowledge base JSON file (`{id, question, answer}`). -/
structure KBRecord where
  id : Int
  question : String
  answer : String
deriving Repr, DecidableEq

/-- The normalization `userQuestion.toLowerCase().trim()` applied on entry
to `findBestMatch`. -/
def normalizeQ (userQuestion : String) : String :=
  jsTrim (jsToLower userQuestion)

/-- Strategy 1 predicate: `record.question.toLowerCase().trim() ===
normalizedUserQuestion`. -/
def exactMatches (nq : String) (record : KBRecord) : Bool :=
  jsTrim (jsToLower record.question) == nq

/-- Strategy 2 predicate: the record question contains the user question or
vice versa (note: the record question is lower-cased but not trimmed here,
exactly as in the source). -/
def substringMatches (nq : String) (record : KBRecord) : Bool :=
  let recordQuestion := jsToLower record.question
  jsIncludes recordQuestion nq || jsIncludes nq recordQuestion

/-- Strategy 3 predicate: at least one user keyword overlaps a record word
under bidirectional containment (`recordWord.includes(word) ||
word.includes(recordWord)`). -/
def keywordMatches (nq : String) (record : KBRecord) : Bool :=
  let userKeywords := jsSplitWs nq
  let recordWords := jsSplitWs (jsToLower record.question)
  (userKeywords.filter (fun word =>
    recordWords.any (fun recordWord =>
      jsIncludes recordWord word || jsIncludes word recordWord))).length > 0

/-- `findBestMatch(userQuestion, records)`: exact match, then substring
match, then keyword match (the source's `for` loop over `records` returns
the first record with a non-empty keyword overlap, i.e. `List.find?`);
`null` (`none`) when no strategy matches. -/
def findBestMatch (userQuestion : String) (records : List KBRecord) : Option KBRecord :=
  let nq := normalizeQ userQuestion
  match records.find? (fun r => exactMatches nq r) with
  | some r => some r
  | none =>
    match records.find? (fun r => substringMatches nq r) with
    | some r => some r
    | none => records.find? (fun r => keywordMatches nq r)

/-- `call_function(name, args)` of the kb route: only `"search_kb"` is
known; a missing knowledge base, a no-match and an unknown name all throw
(modelled as `.error`).  `kb` is the outcome of `search_kb()` (`none` for a
failed read or a file without a `records` field). -/
def call_function (kb : Option (List KBRecord)) (name : String) (args : JVal) :
    Except String JVal :=
  if name == "search_kb" then
    match kb with
    | none => .error "Knowledge base not found or invalid format"
    | some records =>
      match jGet args "question" with
      | some (.str q) =>
        match findBestMatch q records with
        | none => .error "No answer found in knowledge base for the given question"
        | some bestMatch =>
          .ok (.obj [("answer", .str bestMatch.answer), ("source", .num (intRat bestMatch.id))])
      | _ => .error "TypeError: question is not a string"
  else .error ("Unknown function: " ++ name)

end KB

/-! ## Handler outcomes -/

/-- The observable outcome of one route handler invocation: either a
structured HTTP response or an exception escaping the handler itself
(`Next.js` would then produce a raw 500, not the handler's payload). -/
inductive HandlerOutcome (ρ : Type) where
  | response (r : ρ)
  | thrown (e : String)

/-- Is the outcome a well-formed response (as opposed to an escaped
fault)? -/
def HandlerOutcome.isResp {ρ : Type} : HandlerOutcome ρ → Bool
  | .response _ => true
  | .thrown _ => false

/-! ## Weather tool calling (`src/app/api/tool/route.ts`) -/

namespace WeatherTool

/-- One entry of `completion.choices[0].message.tool_calls`.  `isFunc`
models `toolCall.type === "function"`; `argsRaw` is the outcome of
`JSON.parse(toolCall.function.arguments)` (`.error` = the parse throws). -/
structure WToolCall where
  id : String
  isFunc : Bool
  name : String
  argsRaw : Except String JVal

/-- A chat-completion message of the weather route conversation. -/
inductive WMsg where
  | system (content : String)
  | client (raw : JVal)
  | assistant (content : Option String) (toolCalls : List WToolCall)
  | tool (callId : String) (content : JVal)

/-- A model completion: `content` is `message.content` (JS `null` becomes
`none`); `toolCalls` is `message.tool_calls` (`none` = the field is
absent). -/
structure WCompletion where
  content : Option String
  toolCalls : Option (List WToolCall)

/-- `call_function(name, args)`: dispatch to `get_weather`, supporting both
positional-array (`[latitude, longitude]`) and keyed-object
(`{latitude, longitude}`) argument shapes; an unknown name throws.
`get_weather` itself (an external HTTP fetch) is the parameter `gw`; a
`.error` result models the fetch (or its field access) throwing. -/
def call_function (gw : Option JVal → Option JVal → Except String JVal)
    (name : String) (args : JVal) : Except String JVal :=
  if name == "get_weather" then
    match args with
    | .arr l => gw l[0]? l[1]?
    | .null => .error "TypeError: cannot read properties of null"
    | other => gw (jGet other "latitude") (jGet other "longitude")
  else .error ("Unknown function: " ++ name)

/-- Zod `WeatherResponse.parse`: an object with numeric `temperature` and
`wind_speed` (unknown keys stripped); anything else fails validation, which
the route turns into a thrown `Error`. -/
def weatherValidate (v : JVal) : Except String JVal :=
  match jGet v "temperature", jGet v "wind_speed" with
  | some (.num t), some (.num w) =>
    .ok (.obj [("temperature", .num t), ("wind_speed", .num w)])
  | _, _ => .error "Weather data validation failed"

/-- The tool-execution section of the weather route `POST` (its `for` loop
over `toolCalls`).  There is no per-call `try`/`catch` in this route: a
throw from argument parsing, dispatch or validation escapes the loop (to
the route-level `catch`), abandoning the remaining calls.  Returns the
outcome (`.ok` = the extended message list) together with the list of
function names actually dispatched to `call_function`. -/
def processToolBatch (gw : Option JVal → Option JVal → Except String JVal) :
    List WToolCall → List WMsg → Except String (List WMsg) × List String
  | [], msgs => (.ok msgs, [])
  | tc :: rest, msgs =>
    if tc.isFunc then
      match tc.argsRaw with
      | .error e => (.error e, [])
      | .ok args =>
        match call_function gw tc.name args with
        | .error e => (.error e, [tc.name])
        | .ok result =>
          match weatherValidate result with
          | .error e => (.error e, [tc.name])
          | .ok validated =>
            let out := processToolBatch gw rest (msgs ++ [.tool tc.id validated])
            (out.1, tc.name :: out.2)
    else processToolBatch gw rest msgs

/-- The weather route response payload. -/
inductive WResp where
  | okResp (message : String)
  | errResp (error details : String)

/-- The weather route `POST` handler.  `c1`/`c2` are the outcomes of the
two ModelGateway calls; the second component counts gateway invocations.
Everything, including `request.json()`, runs inside the route-level `try`,
so every path yields a structured response. -/
def toolPOST (gw : Option JVal → Option JVal → Except String JVal)
    (c1 : Except String WCompletion) (c2 : Except String (Option String))
    (pb : Except String JVal) : HandlerOutcome WResp × Nat :=
  match pb with
  | .error e => (.response (.errResp "Failed to process request" e), 0)
  | .ok .null => (.response (.errResp "Failed to process request" "TypeError: null body"), 0)
  | .ok body =>
    if !(jIsArray (jGet body "messages")) then
      (.response (.errResp "Failed to process request" "Expected messages to be an array"), 0)
    else
      match c1 with
      | .error e => (.response (.errResp "Failed to process request" e), 1)
      | .ok completion =>
        let toolCalls := completion.toolCalls.getD []
        if toolCalls.isEmpty then
          (.response (.okResp ((completion.content.getD "No response"))), 1)
        else
          let base := WMsg.system "You are a helpful assistant that provides weather information. "
            :: (jElems (jGet body "messages")).map WMsg.client
            ++ [WMsg.assistant none toolCalls]
          match (processToolBatch gw toolCalls base).1 with
          | .error e => (.response (.errResp "Failed to process request" e), 1)
          | .ok _ =>
            match c2 with
            | .error e => (.response (.errResp "Failed to process request" e), 2)
            | .ok content => (.response (.okResp (content.getD "No response")), 2)

end WeatherTool

/-! ## The chained workflow (`src/app/api/promptChaining/route.ts`) -/

namespace Chain

/-- The part of an `openai.responses.parse` result the route consumes:
its `output_text` (fed to `JSON.parse`) plus an opaque stand-in for the
full object (carried into tool-message content by `JSON.stringify`). -/
structure ExecOut where
  output_text : String

/-- Content of a `tool`-role message: the stringified result, the
stringified result extended with the low-confidence `note`, or the
`Error: ...` text produced by the per-call `catch`. -/
inductive ToolContent where
  | okJson (r : ExecOut)
  | okJsonNote (r : ExecOut) (score : Option JVal)
  | errText (e : String)

/-- One model-issued tool call; `isFunc` models
`toolCall.type === "function"`, `argsRaw` the outcome of
`JSON.parse(toolCall.function.arguments)`. -/
structure PToolCall where
  id : String
  isFunc : Bool
  name : String
  argsRaw : Except String JVal

/-- A message of `conversationMessages`. -/
inductive PMsg where
  | system (content : String)
  | client (raw : JVal)
  | assistant (content : Option String) (toolCalls : List PToolCall)
  | tool (callId : String) (content : ToolContent)

/-- A chat completion: `content` (`none` = JS `null`) and `tool_calls`
(`none` = the field is absent; an empty list is still truthy in JS and
keeps the loop running). -/
structure Completion where
  content : Option String
  toolCalls : Option (List PToolCall)

/-- External collaborators of the chained route: the three
structured-output provider calls and `JSON.parse` applied to their
`output_text`. -/
structure ChainEnv where
  extractEventInfo : Option JVal → Except String ExecOut
  extractEventDetails : Option JVal → Except String ExecOut
  extractEventConfirmation : JVal → Except String ExecOut
  parseJson : String → Except String JVal

/-- `executeFunction(name, args)`: dispatch to the three stage functions;
a falsy `eventDetails` argument or an unknown name throws. -/
def executeFunction (env : ChainEnv) (name : String) (args : JVal) : Except String ExecOut :=
  if name == "extractEventInfo" then env.extractEventInfo (jGet args "message")
  else if name == "extractEventDetails" then env.extractEventDetails (jGet args "message")
  else if name == "extractEventConfirmation" then
    match jGet args "eventDetails" with
    | some v =>
      if jTruthy (some v) then env.extractEventConfirmation v
      else .error "Missing eventDetails argument for extractEventConfirmation"
    | none => .error "Missing eventDetails argument for extractEventConfirmation"
  else .error ("Unknown function: " ++ name)

/-- The mutable state the loop body threads: the conversation, the two
stage artifacts (`null` initially), and, for reasoning, the trace of
function names dispatched through `executeFunction`. -/
structure BodyState where
  msgs : List PMsg
  eventInfoResult : Option JVal
  extractedEventDetails : Option JVal
  trace : List String

/-- The special-casing `functionArgs.eventDetails = extractedEventDetails`
that the loop performs for `extractEventConfirmation` when truthy details
were stored by an earlier call. -/
def effectiveArgs (st : BodyState) (name : String) (args : JVal) : JVal :=
  if name == "extractEventConfirmation" && jTruthy st.extractedEventDetails then
    jSet args "eventDetails" (st.extractedEventDetails.getD .null)
  else args

/-- Processing of a single tool call inside the loop body (the `try` block
of the `for` loop).  Non-`function` calls are skipped without appending
anything.  Every throw inside the block (argument parse, dispatch,
execution) is caught and converted into an `Error:`-content tool message;
every path through the block appends exactly one tool message for a
`function`-type call. -/
def processToolCall (env : ChainEnv) (st : BodyState) (tc : PToolCall) : BodyState :=
  if tc.isFunc then
    match tc.argsRaw with
    | .error e => { st with msgs := st.msgs ++ [.tool tc.id (.errText ("Error: " ++ e))] }
    | .ok args0 =>
      let args := effectiveArgs st tc.name args0
      let st := { st with trace := st.trace ++ [tc.name] }
      match executeFunction env tc.name args with
      | .error e => { st with msgs := st.msgs ++ [.tool tc.id (.errText ("Error: " ++ e))] }
      | .ok result =>
        if tc.name == "extractEventInfo" then
          match env.parseJson result.output_text with
          | .ok info =>
            if jTruthy (some info) && jLtNum (jGet info "confidenceScore") ratSevenTenths then
              { st with eventInfoResult := some info,
                        msgs := st.msgs ++
                          [.tool tc.id (.okJsonNote result (jGet info "confidenceScore"))] }
            else
              { st with eventInfoResult := some info,
                        msgs := st.msgs ++ [.tool tc.id (.okJson result)] }
          | .error _ => { st with msgs := st.msgs ++ [.tool tc.id (.okJson result)] }
        else if tc.name == "extractEventDetails" then
          match env.parseJson result.output_text with
          | .ok d =>
            { st with extractedEventDetails := some d,
                      msgs := st.msgs ++ [.tool tc.id (.okJson result)] }
          | .error _ => { st with msgs := st.msgs ++ [.tool tc.id (.okJson result)] }
        else { st with msgs := st.msgs ++ [.tool tc.id (.okJson result)] }
  else st

/-- The `for (const toolCall of toolCalls)` loop: per-call failures are
caught inside `processToolCall`, so the fold always reaches every sibling
call. -/
def processBatch (env : ChainEnv) (st : BodyState) : List PToolCall → BodyState
  | [] => st
  | tc :: rest => processBatch env (processToolCall env st tc) rest

/-- `const maxRetries = 5`. -/
def maxRetries : Nat := 5

/-- The `while` loop of the chained route.  `remaining` is
`maxRetries - retryCount` (the loop guard `retryCount < maxRetries` is
`remaining > 0`); `gw k` is the completion returned by the `(k+1)`-th
ModelGateway call of the run; `callLog` records one entry per gateway
invocation, `true` meaning the call was made with tools enabled (every
call in this route passes `tools` and `tool_choice: "auto"`).  After the
body, `retryCount` is incremented and the loop breaks - with no further
gateway call - when it reaches `maxRetries`. -/
def runChainAux (env : ChainEnv) (gw : Nat → Completion) :
    Nat → Completion → BodyState → List Bool → Completion × BodyState × List Bool
  | 0, c, st, callLog => (c, st, callLog)
  | r + 1, c, st, callLog =>
    match c.toolCalls with
    | none => (c, st, callLog)
    | some toolCalls =>
      let st1 := { st with msgs := st.msgs ++ [.assistant c.content toolCalls] }
      let st2 := processBatch env st1 toolCalls
      match r with
      | 0 => (c, st2, callLog)
      | r2 + 1 => runChainAux env gw (r2 + 1) (gw callLog.length) st2 (callLog ++ [true])

/-- The whole tool-call phase of the route: the initial gateway call (made
with tools enabled) followed by the loop. -/
def runChain (env : ChainEnv) (gw : Nat → Completion) (initialMsgs : List PMsg) :
    Completion × BodyState × List Bool :=
  runChainAux env gw maxRetries (gw 0)
    { msgs := initialMsgs, eventInfoResult := none, extractedEventDetails := none, trace := [] }
    [true]

/-- The chained route's 200 payload: `message` (with the
`"No response generated"` fallback for null/empty content) and
`confidenceScore` (`eventInfoResult?.confidenceScore || null`). -/
structure ChainResp where
  status : Nat
  message : Option String
  confidenceScore : Option JVal
  error : Option String

/-- Assemble the final 200 response from the loop outcome. -/
def chainFinal (out : Completion × BodyState × List Bool) : ChainResp :=
  let finalMessage :=
    match out.1.content with
    | some s => if s == "" then "No response generated" else s
    | none => "No response generated"
  let score :=
    match out.2.1.eventInfoResult with
    | some info =>
      match jGet info "confidenceScore" with
      | some v => if jTruthy (some v) then some v else none
      | none => none
    | none => none
  { status := 200, message := some finalMessage, confidenceScore := score, error := none }

/-- The chained route `POST`.  `request.json()` runs OUTSIDE the `try`
block (so a malformed body - or a `null` body, whose destructuring throws -
escapes the handler as an unhandled fault), and the only input validation
is that `messages` is a (truthy) array.  The second component counts
ModelGateway invocations. -/
def promptChainingPOST (env : ChainEnv) (gw : Nat → Completion)
    (pb : Except String JVal) : HandlerOutcome ChainResp × Nat :=
  match pb with
  | .error e => (.thrown e, 0)
  | .ok .null => (.thrown "TypeError: cannot destructure null body", 0)
  | .ok body =>
    let messages := jGet body "messages"
    if !(jTruthy messages && jIsArray messages) then
      (.response { status := 400, message := none, confidenceScore := none,
                   error := some "Messages array is required" }, 0)
    else
      let initialMsgs :=
        PMsg.system "calendar event processing agent" :: (jElems messages).map PMsg.client
      let out := runChain env gw initialMsgs
      (.response (chainFinal out), out.2.2.length)

end Chain

/-! ## Shared request-body input extraction

`src/app/api/routing/route.ts` and `src/app/api/parallelization/route.ts`
derive `userInput` from the body identically: the content of the last
truthy-content `user` message when `body.messages` is a truthy array,
else `body.userInput` when truthy, else `undefined`. -/

/-- The `userInput` derivation shared by the routing and parallelization
handlers. -/
def userInputOf (body : JVal) : Option JVal :=
  if jTruthy (jGet body "messages") && jIsArray (jGet body "messages") then
    let userMessages := (jElems (jGet body "messages")).filter
      (fun msg => jStrEq (jGet msg "role") "user" && jTruthy (jGet msg "content"))
    match userMessages.getLast? with
    | some msg => jGet msg "content"
    | none => none
  else if jTruthy (jGet body "userInput") then jGet body "userInput"
  else none

/-! ## The routing workflow (`src/app/api/routing/route.ts`) -/

namespace Routing

/-- The Zod-validated `ExtractEvent` classification
(`{request_type, confidence_score, description}`). -/
structure ClsOut where
  request_type : String
  confidence_score : Rat
  description : String

/-- The routing route's observable response: a structured error or a
success payload carrying the classification and the branch artifact. -/
inductive RResp where
  | errorResp (status : Nat) (error : String)
  | okResp (cls : ClsOut) (eventDetails : Option JVal)

/-- The routing route `POST`.  `extractEvent`, `newEvent` and `modifyEvent`
are the three ModelGateway-backed stage functions (each one call); the
second component counts gateway invocations.  All parsing and dispatch run
inside the route-level `try`, so every path responds. -/
def routingPOST (extractEvent : String → Except String ClsOut)
    (newEvent modifyEvent : ClsOut → Except String JVal)
    (pb : Except String JVal) : HandlerOutcome RResp × Nat :=
  match pb with
  | .error e => (.response (.errorResp 500 e), 0)
  | .ok .null => (.response (.errorResp 500 "TypeError: cannot read properties of null"), 0)
  | .ok body =>
    match userInputOf body with
    | none =>
      (.response (.errorResp 400
        "Missing required field userInput or messages with user content in request body"), 0)
    | some v =>
      match v with
      | .str userInput =>
        if jsTrim userInput == "" then
          (.response (.errorResp 400 "User input cannot be empty"), 0)
        else
          match extractEvent userInput with
          | .error e => (.response (.errorResp 500 e), 1)
          | .ok extractedEvent =>
            if extractedEvent.confidence_score < ratThreeFifths then
              (.response (.errorResp 400 "Low confidence score"), 1)
            else if extractedEvent.request_type == "new_event" then
              match newEvent extractedEvent with
              | .error e => (.response (.errorResp 500 e), 2)
              | .ok details => (.response (.okResp extractedEvent (some details)), 2)
            else if extractedEvent.request_type == "modify_event" then
              match modifyEvent extractedEvent with
              | .error e => (.response (.errorResp 500 e), 2)
              | .ok details => (.response (.okResp extractedEvent (some details)), 2)
            else (.response (.okResp extractedEvent none), 1)
      | _ => (.response (.errorResp 400 "User input must be a string"), 0)

end Routing

/-! ## The parallel workflow (`src/app/api/parallelization/route.ts`) -/

namespace Parallel

/-- `Promise.all` over two already-issued independent calls: the pair when
both fulfil, a rejection when either rejects.  (Which rejection wins is
timing-dependent in JS; the embedding picks the first argument's error.
Every claim treated here depends only on whether some rejection occurs.) -/
def promiseAll2 {α β : Type} : Except String α → Except String β → Except String (α × β)
  | .ok a, .ok b => .ok (a, b)
  | .error e, _ => .error e
  | _, .error e => .error e

/-- `validateInput(input)`: fan out `validateEvent` and `checkSecurity`
concurrently, join with `Promise.all`, and re-wrap any rejection in a
`Validation failed:` error. -/
def validateInput (validateEvent checkSecurity : String → Except String JVal)
    (input : String) : Except String (JVal × JVal) :=
  match promiseAll2 (validateEvent input) (checkSecurity input) with
  | .ok p => .ok p
  | .error e => .error ("Validation failed: " ++ e)

/-- The parallelization route's observable response. -/
inductive PResp where
  | errorResp (status : Nat) (error : String)
  | okResp (eventResult securityResult : JVal)

/-- The parallelization route `POST`.  Both validation calls are issued
whenever the input passes validation, so the gateway count is 2 on every
non-rejected path (also on failure: `Promise.all` issues both before
awaiting). -/
def parallelPOST (validateEvent checkSecurity : String → Except String JVal)
    (pb : Except String JVal) : HandlerOutcome PResp × Nat :=
  match pb with
  | .error e => (.response (.errorResp 500 e), 0)
  | .ok .null => (.response (.errorResp 500 "TypeError: cannot read properties of null"), 0)
  | .ok body =>
    match userInputOf body with
    | none => (.response (.errorResp 400 "Missing or invalid user input"), 0)
    | some v =>
      match v with
      | .str userInput =>
        if jsTrim userInput == "" then
          (.response (.errorResp 400 "Missing or invalid user input"), 0)
        else
          match validateInput validateEvent checkSecurity (jsTrim userInput) with
          | .error e => (.response (.errorResp 500 e), 2)
          | .ok results => (.response (.okResp results.1 results.2), 2)
      | _ => (.response (.errorResp 400 "Missing or invalid user input"), 0)

end Parallel

/-! ## The single-call workflow (`src/app/api/chat/route.ts`) -/

namespace Chat

/-- The chat route's observable response. -/
inductive CResp where
  | errorResp (status : Nat) (error : String)
  | okResp (message : Option String)

/-- The chat route `POST`: validate that `messages` is a (truthy) array,
then a single ModelGateway call (`complete`), whose content is returned
as-is.  Everything runs inside the route-level `try`. -/
def chatPOST (complete : List JVal → Except String (Option String))
    (pb : Except String JVal) : HandlerOutcome CResp × Nat :=
  match pb with
  | .error _ => (.response (.errorResp 500 "Failed to generate response"), 0)
  | .ok .null => (.response (.errorResp 500 "Failed to generate response"), 0)
  | .ok body =>
    let messages := jGet body "messages"
    if !(jTruthy messages && jIsArray messages) then
      (.response (.errorResp 400 "Messages array is required"), 0)
    else
      match complete (jElems messages) with
      | .error _ => (.response (.errorResp 500 "Failed to generate response"), 1)
      | .ok content => (.response (.okResp content), 1)

end Chat

/-! ## The knowledge-base route handler (`src/app/api/kbTool/route.ts`) -/

namespace KB

/-- A kb-route tool call (same shape as the weather route's). -/
structure KToolCall where
  id : String
  isFunc : Bool
  name : String
  argsRaw : Except String JVal

/-- A kb-route completion. -/
structure KCompletion where
  content : Option String
  toolCalls : Option (List KToolCall)

/-- Zod `AnswerKB.safeParse`: `{answer: string, source: number}`. -/
def answerValid (v : JVal) : Bool :=
  jIsString (jGet v "answer") &&
    (match jGet v "source" with | some (.num _) => true | _ => false)

/-- One tool-result message of the kb route (`role: "tool"`). -/
structure KToolMsg where
  tool_call_id : String
  content : String

/-- The kb route's `for` loop over tool calls.  `JSON.parse` of the
arguments runs BEFORE the per-call `try`, so a malformed argument string
escapes to the route-level `catch` (aborting the batch); failures of
`call_function` or of the Zod validation are caught per call and become
`Error:`-content tool messages, and the loop continues. -/
def processKbBatch (kb : Option (List KBRecord)) :
    List KToolCall → Except String (List KToolMsg)
  | [] => .ok []
  | tc :: rest =>
    if tc.isFunc then
      match tc.argsRaw with
      | .error e => .error e
      | .ok args =>
        let msg :=
          match call_function kb tc.name args with
          | .ok result =>
            if answerValid result then
              match jGet result "answer" with
              | some (.str answer) => KToolMsg.mk tc.id answer
              | _ => KToolMsg.mk tc.id "Error: Invalid response format from knowledge base"
            else KToolMsg.mk tc.id "Error: Invalid response format from knowledge base"
          | .error e => KToolMsg.mk tc.id ("Error: " ++ e)
        match processKbBatch kb rest with
        | .ok msgs => .ok (msg :: msgs)
        | .error e => .error e
    else processKbBatch kb rest

/-- The kb route's observable response. -/
inductive KResp where
  | errorResp (status : Nat) (error : String)
  | okResp (message : String)

/-- The kb route `POST`: validate the messages array (non-empty, with a
user message), one gateway call with the kb tool enabled, execute any tool
calls, then a second gateway call for the final text.  Everything runs
inside the route-level `try`. -/
def kbPOST (kb : Option (List KBRecord)) (c1 : Except String KCompletion)
    (c2 : Except String (Option String)) (pb : Except String JVal) :
    HandlerOutcome KResp × Nat :=
  match pb with
  | .error e => (.response (.errorResp 500 ("Internal server error: " ++ e)), 0)
  | .ok .null =>
    (.response (.errorResp 500 "Internal server error: TypeError: null body"), 0)
  | .ok body =>
    let messages := jGet body "messages"
    if !(jTruthy messages && jIsArray messages && !(jElems messages).isEmpty) then
      (.response (.errorResp 400 "Invalid request format. Expected messages array."), 0)
    else
      let userMessages := (jElems messages).filter (fun msg => jStrEq (jGet msg "role") "user")
      match userMessages.getLast? with
      | none => (.response (.errorResp 400 "No user message found."), 0)
      | some _ =>
        match c1 with
        | .error e => (.response (.errorResp 500 ("Internal server error: " ++ e)), 1)
        | .ok completion =>
          match completion.toolCalls with
          | none =>
            (.response (.okResp (completion.content.getD "No response generated")), 1)
          | some toolCalls =>
            match processKbBatch kb toolCalls with
            | .error e => (.response (.errorResp 500 ("Internal server error: " ++ e)), 1)
            | .ok _ =>
              match c2 with
              | .error e => (.response (.errorResp 500 ("Internal server error: " ++ e)), 2)
              | .ok content =>
                (.response (.okResp (content.getD "No response generated")), 2)

end KB

/-! ## Concrete fixtures used by counterexamples and witnesses -/

/-- `Except.isOk` as a plain function. -/
def isOkE {ε α : Type} : Except ε α → Bool
  | .ok _ => true
  | .error _ => false

namespace KB

/-- A record whose question shares the word `beta` with `"alpha beta"` but
is neither an exact nor a substring match for it. -/
def rA : KBRecord := ⟨1, "beta gamma", "answer one"⟩

/-- A record whose question `"alpha"` is a substring of `"alpha beta"`. -/
def rB : KBRecord := ⟨2, "alpha", "answer two"⟩

end KB

namespace WeatherTool

/-- A weather executor that always succeeds with a fixed reading. -/
def gwWX : Option JVal → Option JVal → Except String JVal := fun _ _ =>
  .ok (.obj [("temperature", .num (intRat 20)), ("wind_speed", .num (intRat 5))])

/-- A tool call naming a function absent from the catalog. -/
def tcUnknown : WToolCall := ⟨"w1", true, "nope", .ok (.obj [])⟩

/-- A well-formed `get_weather` call. -/
def tcWeather : WToolCall :=
  ⟨"w2", true, "get_weather",
   .ok (.obj [("latitude", .num (intRat 48)), ("longitude", .num (intRat 2))])⟩

end WeatherTool

namespace Chain

/-- An environment whose provider-backed executors always throw and whose
`JSON.parse` always fails. -/
def envErr : ChainEnv :=
  { extractEventInfo := fun _ => .error "provider unavailable"
    extractEventDetails := fun _ => .error "provider unavailable"
    extractEventConfirmation := fun _ => .error "provider unavailable"
    parseJson := fun _ => .error "Unexpected token" }

/-- A well-formed `extractEventInfo` tool call. -/
def tcInfo : PToolCall := ⟨"call_1", true, "extractEventInfo", .ok (.obj [("message", .str "hi")])⟩

/-- A well-formed `extractEventDetails` tool call. -/
def tcDetails : PToolCall :=
  ⟨"call_2", true, "extractEventDetails", .ok (.obj [("message", .str "hi")])⟩

/-- A tool call of a non-`function` type (`toolCall.type !== "function"`). -/
def tcCustom : PToolCall := ⟨"call_c", false, "custom_tool", .ok .null⟩

/-- A `function`-type tool call naming a function absent from the
dispatcher. -/
def tcNope : PToolCall := ⟨"call_9", true, "unknownFn", .ok (.obj [])⟩

/-- A scripted gateway that returns tool calls on every invocation. -/
def gwLoop : Nat → Completion := fun _ => ⟨none, some [tcInfo]⟩

/-- A scripted gateway that returns plain text immediately. -/
def gwText : Nat → Completion := fun _ => ⟨some "a response", none⟩

/-- A scripted gateway whose first completion carries only a
non-`function` tool call. -/
def gwCustom : Nat → Completion := fun k =>
  if k == 0 then ⟨none, some [tcCustom]⟩ else ⟨some "done", none⟩

/-- The parsed `extractEventInfo` output with a 0.5 confidence score. -/
def infoLow : JVal :=
  .obj [("description", .str "ambiguous"), ("isCalendarEvent", .bool true),
        ("confidenceScore", .num ratHalf)]

/-- An environment whose classification stage reports confidence 0.5 and
whose detail stage succeeds. -/
def envLow : ChainEnv :=
  { extractEventInfo := fun _ => .ok ⟨"INFO_JSON"⟩
    extractEventDetails := fun _ => .ok ⟨"DETAILS_JSON"⟩
    extractEventConfirmation := fun _ => .ok ⟨"CONF_JSON"⟩
    parseJson := fun s =>
      if s == "INFO_JSON" then .ok infoLow
      else if s == "DETAILS_JSON" then .ok (.obj [("name", .str "meeting")])
      else .error "Unexpected token" }

/-- A scripted gateway whose first completion requests the classification
call and the detail-extraction call in the same batch. -/
def gwLow : Nat → Completion := fun k =>
  if k == 0 then ⟨none, some [tcInfo, tcDetails]⟩ else ⟨some "done", none⟩

/-- The initial loop body state. -/
def st0 : BodyState := ⟨[], none, none, []⟩

/-- The projection used to state message-ordering facts: the referenced
call id of a `tool` message. -/
def toolKey : PMsg → String
  | .tool callId _ => callId
  | _ => ""

/-- Is a conversation message a `tool`-role message? -/
def isToolMsg : PMsg → Bool
  | .tool _ _ => true
  | _ => false

end Chain

/-- A request body whose only user message has whitespace-only content. -/
def wsBody : JVal :=
  .obj [("messages", .arr [.obj [("role", .str "user"), ("content", .str "   ")]])]

/-- A request body whose only user message has content `"hello"`. -/
def wsBody2 : JVal :=
  .obj [("messages", .arr [.obj [("role", .str "user"), ("content", .str "hello")]])]

/-- Classifies a parsed-body outcome that makes the chained handler throw:
a body-parse failure or a JSON `null` body (whose destructuring throws). -/
def pbBad : Except String JVal → Bool
  | .error _ => true
  | .ok .null => true
  | .ok _ => false

/-! ## Theorems -/

/-- **C9.**  The tool-call argument adapter accepts positional-array and
keyed-object shapes equivalently: for `get_weather`, `[a, b]` and
`{latitude: a, longitude: b}` reach the executor with the same pair of
arguments, so the whole dispatch returns the same result. -/
theorem weather_args_shape_equiv (gw : Option JVal → Option JVal → Except String JVal)
    (a b : JVal) :
    WeatherTool.call_function gw "get_weather" (.arr [a, b])
      = WeatherTool.call_function gw "get_weather" (.obj [("latitude", a), ("longitude", b)]) :=
  rfl

/-- Helper: when neither the exact nor the substring strategy matches any
record, `findBestMatch` is the first keyword match. -/
theorem findBestMatch_keyword_stage (q : String) (rs : List KB.KBRecord)
    (h1 : ∀ r ∈ rs, KB.exactMatches (KB.normalizeQ q) r = false)
    (h2 : ∀ r ∈ rs, KB.substringMatches (KB.normalizeQ q) r = false) :
    KB.findBestMatch q rs = rs.find? (fun r => KB.keywordMatches (KB.normalizeQ q) r) := by
  have e1 : rs.find? (fun r => KB.exactMatches (KB.normalizeQ q) r) = none :=
    List.find?_eq_none.mpr (fun r hr => by simp [h1 r hr])
  have e2 : rs.find? (fun r => KB.substringMatches (KB.normalizeQ q) r) = none :=
    List.find?_eq_none.mpr (fun r hr => by simp [h2 r hr])
  simp only [KB.findBestMatch, e1, e2]

/-- **C4.**  `findBestMatch` tries the strategies in the fixed priority
order exact, substring, keyword, returning the record the first producing
strategy selects, and reports `none` (no answer) when no strategy
matches. -/
theorem findBestMatch_priority_order (q : String) (rs : List KB.KBRecord) :
    ((∃ r ∈ rs, KB.exactMatches (KB.normalizeQ q) r = true) →
       KB.findBestMatch q rs = rs.find? (fun r => KB.exactMatches (KB.normalizeQ q) r))
    ∧ ((∀ r ∈ rs, KB.exactMatches (KB.normalizeQ q) r = false) →
       (∃ r ∈ rs, KB.substringMatches (KB.normalizeQ q) r = true) →
       KB.findBestMatch q rs = rs.find? (fun r => KB.substringMatches (KB.normalizeQ q) r))
    ∧ ((∀ r ∈ rs, KB.exactMatches (KB.normalizeQ q) r = false) →
       (∀ r ∈ rs, KB.substringMatches (KB.normalizeQ q) r = false) →
       KB.findBestMatch q rs = rs.find? (fun r => KB.keywordMatches (KB.normalizeQ q) r))
    ∧ ((∀ r ∈ rs, KB.exactMatches (KB.normalizeQ q) r = false
          ∧ KB.substringMatches (KB.normalizeQ q) r = false
          ∧ KB.keywordMatches (KB.normalizeQ q) r = false) →
       KB.findBestMatch q rs = none) := by
  refine ⟨?_, ?_, ?_, ?_⟩
  · rintro ⟨r, hr, hp⟩
    rcases hfind : rs.find? (fun r => KB.exactMatches (KB.normalizeQ q) r) with _ | r0
    · exact absurd hp (by simpa using List.find?_eq_none.mp hfind r hr)
    · simp only [KB.findBestMatch, hfind]
  · intro h1
    rintro ⟨r, hr, hp⟩
    have e1 : rs.find? (fun r => KB.exactMatches (KB.normalizeQ q) r) = none :=
      List.find?_eq_none.mpr (fun r hr => by simp [h1 r hr])
    rcases hfind : rs.find? (fun r => KB.substringMatches (KB.normalizeQ q) r) with _ | r0
    · exact absurd hp (by simpa using List.find?_eq_none.mp hfind r hr)
    · simp only [KB.findBestMatch, e1, hfind]
  · exact findBestMatch_keyword_stage q rs
  · intro h
    rw [findBestMatch_keyword_stage q rs (fun r hr => (h r hr).1) (fun r hr => (h r hr).2.1)]
    exact List.find?_eq_none.mpr (fun r hr => by simp [(h r hr).2.2])

/-- Witness for C4 at a concrete knowledge base: an exact match (after
normalization) is selected by the first strategy. -/
theorem findBestMatch_priority_order_witness :
    (∃ r ∈ [KB.rB], KB.exactMatches (KB.normalizeQ " Alpha ") r = true)
    ∧ KB.findBestMatch " Alpha " [KB.rB] = some KB.rB :=
  ⟨⟨KB.rB, by simp, by decide⟩,
   ((findBestMatch_priority_order " Alpha " [KB.rB]).1 ⟨KB.rB, by simp, by decide⟩).trans rfl⟩

/-- **C10 (amended).**  In the keyword strategy a single overlapping word
suffices: (1) if any record keyword-matches the normalized question,
`findBestMatch` answers (never the no-answer condition); (2) when no record
exact- or substring-matches, the result is the FIRST keyword-matching
record in array order; (3) `keywordMatches` holds exactly when one
whitespace-delimited user word overlaps one record word under
bidirectional containment (no stop-word filtering). -/
theorem keyword_single_word_suffices (q : String) (rs : List KB.KBRecord) :
    ((∃ r ∈ rs, KB.keywordMatches (KB.normalizeQ q) r = true) →
       (KB.findBestMatch q rs).isSome = true)
    ∧ ((∀ r ∈ rs, KB.exactMatches (KB.normalizeQ q) r = false) →
       (∀ r ∈ rs, KB.substringMatches (KB.normalizeQ q) r = false) →
       KB.findBestMatch q rs = rs.find? (fun r => KB.keywordMatches (KB.normalizeQ q) r))
    ∧ (∀ r : KB.KBRecord, KB.keywordMatches (KB.normalizeQ q) r =
        (jsSplitWs (KB.normalizeQ q)).any (fun word =>
          (jsSplitWs (jsToLower r.question)).any (fun recordWord =>
            jsIncludes recordWord word || jsIncludes word recordWord))) := by
  refine ⟨?_, findBestMatch_keyword_stage q rs, ?_⟩
  · rintro ⟨r, hr, hp⟩
    rcases h1 : rs.find? (fun r => KB.exactMatches (KB.normalizeQ q) r) with _ | r1
    · rcases h2 : rs.find? (fun r => KB.substringMatches (KB.normalizeQ q) r) with _ | r2
      · have hks : (rs.find? (fun r => KB.keywordMatches (KB.normalizeQ q) r)).isSome :=
          List.find?_isSome.mpr ⟨r, hr, hp⟩
        simp only [KB.findBestMatch, h1, h2]
        exact hks
      · simp only [KB.findBestMatch, h1, h2, Option.isSome_some]
    · simp only [KB.findBestMatch, h1, Option.isSome_some]
  · intro r
    have base : KB.keywordMatches (KB.normalizeQ q) r =
        decide (0 < ((jsSplitWs (KB.normalizeQ q)).filter (fun word =>
          (jsSplitWs (jsToLower r.question)).any (fun recordWord =>
            jsIncludes recordWord word || jsIncludes word recordWord))).length) := rfl
    rw [base]
    cases h : (jsSplitWs (KB.normalizeQ q)).any (fun word =>
        (jsSplitWs (jsToLower r.question)).any (fun recordWord =>
          jsIncludes recordWord word || jsIncludes word recordWord)) with
    | false =>
      have hall : ∀ w ∈ jsSplitWs (KB.normalizeQ q),
          ¬((jsSplitWs (jsToLower r.question)).any (fun recordWord =>
            jsIncludes recordWord w || jsIncludes w recordWord) = true) := by
        intro w hw hc
        have hx : ((jsSplitWs (KB.normalizeQ q)).any (fun word =>
            (jsSplitWs (jsToLower r.question)).any (fun recordWord =>
              jsIncludes recordWord word || jsIncludes word recordWord))) = true :=
          List.any_eq_true.mpr ⟨w, hw, hc⟩
        rw [h] at hx
        exact Bool.false_ne_true hx
      have hnil : (jsSplitWs (KB.normalizeQ q)).filter (fun word =>
          (jsSplitWs (jsToLower r.question)).any (fun recordWord =>
            jsIncludes recordWord word || jsIncludes word recordWord)) = [] :=
        List.filter_eq_nil_iff.mpr hall
      simp [hnil]
    | true =>
      obtain ⟨w, hw, hww⟩ := List.any_eq_true.mp h
      have hmem : w ∈ (jsSplitWs (KB.normalizeQ q)).filter (fun word =>
          (jsSplitWs (jsToLower r.question)).any (fun recordWord =>
            jsIncludes recordWord word || jsIncludes word recordWord)) :=
        List.mem_filter.mpr ⟨hw, hww⟩
      have hpos := List.length_pos.mpr (List.ne_nil_of_mem hmem)
      simp [hpos]

/-- Witness for C10 at a concrete input: `"alpha beta"` shares the word
`beta` with record `rA`, so a record is returned. -/
theorem keyword_single_word_suffices_witness :
    (∃ r ∈ [KB.rA], KB.keywordMatches (KB.normalizeQ "alpha beta") r = true)
    ∧ (KB.findBestMatch "alpha beta" [KB.rA]).isSome = true :=
  ⟨⟨KB.rA, by simp, by decide⟩,
   (keyword_single_word_suffices "alpha beta" [KB.rA]).1 ⟨KB.rA, by simp, by decide⟩⟩

/-- Counterexample for C10 as stated: with records `[rA, rB]` and user
question `"alpha beta"`, the first record sharing a word (the first
keyword match) is `rA`, yet `findBestMatch` returns `rB`, selected by the
higher-priority substring strategy. -/
theorem keyword_first_match_order_cex :
    KB.findBestMatch "alpha beta" [KB.rA, KB.rB] = some KB.rB
    ∧ [KB.rA, KB.rB].find? (fun r => KB.keywordMatches (KB.normalizeQ "alpha beta") r)
        = some KB.rA
    ∧ KB.rB ≠ KB.rA :=
  ⟨rfl, rfl, by decide⟩

/-- **C6.**  The parallel workflow joins its two independent validation
calls all-or-nothing: the composed result exists exactly when both calls
succeed, it is exactly the pair of both results, and on any failure the
handler returns a structured error carrying no partial validation data.
(Both calls are issued before the join awaits - the gateway count is 2 on
the failing path as well; true wall-clock concurrency is outside the
embedding.) -/
theorem parallel_join_all_or_nothing
    (validateEvent checkSecurity : String → Except String JVal) (input : String) :
    (isOkE (Parallel.validateInput validateEvent checkSecurity input) = true ↔
       (isOkE (validateEvent input) = true ∧ isOkE (checkSecurity input) = true))
    ∧ (∀ a b, validateEvent input = .ok a → checkSecurity input = .ok b →
        Parallel.validateInput validateEvent checkSecurity input = .ok (a, b))
    ∧ (∀ p, Parallel.validateInput validateEvent checkSecurity input = .ok p →
        validateEvent input = .ok p.1 ∧ checkSecurity input = .ok p.2)
    ∧ (∀ body s e, userInputOf body = some (.str s) → (jsTrim s == "") = false →
        input = jsTrim s →
        Parallel.validateInput validateEvent checkSecurity input = .error e →
        Parallel.parallelPOST validateEvent checkSecurity (.ok body)
          = (.response (.errorResp 500 e), 2)) := by
  refine ⟨?_, ?_, ?_, ?_⟩
  · cases hv : validateEvent input <;> cases hc : checkSecurity input <;>
      simp [Parallel.validateInput, Parallel.promiseAll2, isOkE, hv, hc]
  · intro a b hv hc
    simp [Parallel.validateInput, Parallel.promiseAll2, hv, hc]
  · intro p hp
    cases hv : validateEvent input <;> cases hc : checkSecurity input <;>
      simp [Parallel.validateInput, Parallel.promiseAll2, hv, hc] at hp
    subst hp
    simp [hv, hc]
  · intro body s e hu hs hi hv
    cases body with
    | null => simp [userInputOf, jGet, jTruthy] at hu
    | bool b => simp [Parallel.parallelPOST, hu, hs, hi ▸ hv]
    | num n => simp [Parallel.parallelPOST, hu, hs, hi ▸ hv]
    | str t => simp [Parallel.parallelPOST, hu, hs, hi ▸ hv]
    | arr l => simp [Parallel.parallelPOST, hu, hs, hi ▸ hv]
    | obj fs => simp [Parallel.parallelPOST, hu, hs, hi ▸ hv]

/-- Witness for C6 at concrete outcomes: two fulfilled validations compose
into the pair, and a failing security check turns the whole request into a
structured 500 with both calls issued. -/
theorem parallel_join_all_or_nothing_witness :
    ((fun _ : String => (Except.ok (JVal.bool true) : Except String JVal)) "hello"
        = .ok (JVal.bool true))
    ∧ Parallel.validateInput (fun _ => .ok (JVal.bool true)) (fun _ => .ok (JVal.bool false))
        "hello" = .ok (JVal.bool true, JVal.bool false)
    ∧ Parallel.parallelPOST (fun _ => .ok (JVal.bool true))
        (fun _ => .error "rate limit") (.ok wsBody2)
        = (.response (.errorResp 500 "Validation failed: rate limit"), 2) :=
  ⟨rfl,
   (parallel_join_all_or_nothing (fun _ => .ok (JVal.bool true))
      (fun _ => .ok (JVal.bool false)) "hello").2.1 _ _ rfl rfl,
   (parallel_join_all_or_nothing (fun _ => .ok (JVal.bool true))
      (fun _ => .error "rate limit") "hello").2.2.2 wsBody2 "hello" _ rfl rfl rfl rfl⟩

/-- A skipped (non-`function`) tool call leaves the loop state unchanged. -/
theorem processToolCall_skip (env : Chain.ChainEnv) (st : Chain.BodyState)
    (tc : Chain.PToolCall) (h : tc.isFunc = false) :
    Chain.processToolCall env st tc = st := by
  simp [Chain.processToolCall, h]

/-- A `function`-type tool call appends exactly one `tool` message, carrying
that call's id, whatever the outcome of its execution. -/
theorem processToolCall_msgs (env : Chain.ChainEnv) (st : Chain.BodyState)
    (tc : Chain.PToolCall) (h : tc.isFunc = true) :
    ∃ cont, (Chain.processToolCall env st tc).msgs
      = st.msgs ++ [Chain.PMsg.tool tc.id cont] := by
  unfold Chain.processToolCall
  rw [if_pos h]
  cases ha : tc.argsRaw with
  | error e => exact ⟨_, rfl⟩
  | ok args =>
    simp only
    cases he : Chain.executeFunction env tc.name (Chain.effectiveArgs st tc.name args) with
    | error e => simp only [he]; exact ⟨_, rfl⟩
    | ok result =>
      simp only [he]
      repeat first
      | exact ⟨_, rfl⟩
      | split

/-- The batch fold appends one `tool` message per `function`-type call, in
issue order, and nothing else. -/
theorem processBatch_msgs (env : Chain.ChainEnv) :
    ∀ (tcs : List Chain.PToolCall) (st : Chain.BodyState),
    ∃ L, (Chain.processBatch env st tcs).msgs = st.msgs ++ L
      ∧ L.map Chain.toolKey = (tcs.filter (fun tc => tc.isFunc)).map (fun tc => tc.id)
      ∧ ∀ m ∈ L, Chain.isToolMsg m = true := by
  intro tcs
  induction tcs with
  | nil => exact fun st => ⟨[], by simp [Chain.processBatch], by simp, by simp⟩
  | cons tc rest ih =>
    intro st
    by_cases hf : tc.isFunc = true
    · obtain ⟨cont, hc⟩ := processToolCall_msgs env st tc hf
      obtain ⟨L, hL1, hL2, hL3⟩ := ih (Chain.processToolCall env st tc)
      refine ⟨Chain.PMsg.tool tc.id cont :: L, ?_, ?_, ?_⟩
      · show (Chain.processBatch env (Chain.processToolCall env st tc) rest).msgs = _
        rw [hL1, hc]
        simp
      · simp [List.filter_cons, hf, hL2, Chain.toolKey]
      · intro m hm
        rcases List.mem_cons.mp hm with h | h
        · subst h; rfl
        · exact hL3 m h
    · have hf0 : tc.isFunc = false := by simpa using hf
      obtain ⟨L, hL1, hL2, hL3⟩ := ih st
      refine ⟨L, ?_, ?_, hL3⟩
      · show (Chain.processBatch env (Chain.processToolCall env st tc) rest).msgs = _
        rw [processToolCall_skip env st tc hf0, hL1]
      · simp [List.filter_cons, hf0, hL2]

/-- The loop only ever appends to the conversation. -/
theorem runChainAux_msgs_prefix (env : Chain.ChainEnv) (gw : Nat → Chain.Completion) :
    ∀ (r : Nat) (c : Chain.Completion) (st : Chain.BodyState) (log : List Bool),
    ∃ suffix, (Chain.runChainAux env gw r c st log).2.1.msgs = st.msgs ++ suffix := by
  intro r
  induction r with
  | zero => exact fun c st log => ⟨[], by simp [Chain.runChainAux]⟩
  | succ r ih =>
    intro c st log
    obtain ⟨cc, tcOpt⟩ := c
    cases tcOpt with
    | none => exact ⟨[], by show st.msgs = st.msgs ++ []; simp⟩
    | some tcs =>
      obtain ⟨L, hL1, _, _⟩ := processBatch_msgs env tcs
        { st with msgs := st.msgs ++ [Chain.PMsg.assistant cc tcs] }
      cases r with
      | zero =>
        refine ⟨Chain.PMsg.assistant cc tcs :: L, ?_⟩
        show (Chain.processBatch env
          { st with msgs := st.msgs ++ [Chain.PMsg.assistant cc tcs] } tcs).msgs = _
        rw [hL1]
        simp
      | succ r2 =>
        obtain ⟨S, hS⟩ := ih (gw log.length)
          (Chain.processBatch env
            { st with msgs := st.msgs ++ [Chain.PMsg.assistant cc tcs] } tcs)
          (log ++ [true])
        refine ⟨Chain.PMsg.assistant cc tcs :: (L ++ S), ?_⟩
        show (Chain.runChainAux env gw (r2 + 1) (gw log.length)
          (Chain.processBatch env
            { st with msgs := st.msgs ++ [Chain.PMsg.assistant cc tcs] } tcs)
          (log ++ [true])).2.1.msgs = _
        rw [hS, hL1]
        simp

/-- The gateway call log only ever grows. -/
theorem runChainAux_log_extends (env : Chain.ChainEnv) (gw : Nat → Chain.Completion) :
    ∀ (r : Nat) (c : Chain.Completion) (st : Chain.BodyState) (log : List Bool),
    ∃ ext, (Chain.runChainAux env gw r c st log).2.2 = log ++ ext := by
  intro r
  induction r with
  | zero => exact fun c st log => ⟨[], by simp [Chain.runChainAux]⟩
  | succ r ih =>
    intro c st log
    obtain ⟨cc, tcOpt⟩ := c
    cases tcOpt with
    | none => exact ⟨[], by show log = log ++ []; simp⟩
    | some tcs =>
      cases r with
      | zero => exact ⟨[], by show log = log ++ []; simp⟩
      | succ r2 =>
        obtain ⟨ext, hext⟩ := ih (gw log.length)
          (Chain.processBatch env
            { st with msgs := st.msgs ++ [Chain.PMsg.assistant cc tcs] } tcs)
          (log ++ [true])
        refine ⟨true :: ext, ?_⟩
        show (Chain.runChainAux env gw (r2 + 1) (gw log.length)
          (Chain.processBatch env
            { st with msgs := st.msgs ++ [Chain.PMsg.assistant cc tcs] } tcs)
          (log ++ [true])).2.2 = _
        rw [hext]
        simp

/-- Every run makes at least the initial gateway call. -/
theorem chain_calls_pos (env : Chain.ChainEnv) (gw : Nat → Chain.Completion)
    (ms : List Chain.PMsg) : 1 ≤ (Chain.runChain env gw ms).2.2.length := by
  unfold Chain.runChain
  obtain ⟨ext, hext⟩ := runChainAux_log_extends env gw Chain.maxRetries (gw 0) _ [true]
  rw [hext]
  simp

/-- When every completion keeps requesting tools, the loop performs
`maxRetries - 1` further gateway calls after the initial one and then
breaks: `log` grows by `r - 1` entries. -/
theorem runChainAux_log (env : Chain.ChainEnv) (gw : Nat → Chain.Completion)
    (h : ∀ k, ((gw k).toolCalls).isSome = true) :
    ∀ (r : Nat), 1 ≤ r → ∀ (c : Chain.Completion), c.toolCalls.isSome = true →
    ∀ (st : Chain.BodyState) (log : List Bool),
      (Chain.runChainAux env gw r c st log).2.2 = log ++ List.replicate (r - 1) true := by
  intro r
  induction r with
  | zero => intro h1; exact absurd h1 (by omega)
  | succ r ih =>
    intro _ c hc st log
    obtain ⟨cc, tcOpt⟩ := c
    cases tcOpt with
    | none => exact absurd hc (by simp)
    | some tcs =>
      cases r with
      | zero => show log = log ++ List.replicate (0 + 1 - 1) true; simp
      | succ r2 =>
        have step := ih (by omega) (gw log.length) (h log.length)
          (Chain.processBatch env
            { st with msgs := st.msgs ++ [Chain.PMsg.assistant cc tcs] } tcs)
          (log ++ [true])
        show (Chain.runChainAux env gw (r2 + 1) (gw log.length)
          (Chain.processBatch env
            { st with msgs := st.msgs ++ [Chain.PMsg.assistant cc tcs] } tcs)
          (log ++ [true])).2.2 = _
        rw [step]
        simp [List.replicate_succ]

/-- **C1 (amended).**  When the model keeps returning tool calls, the
chained loop stops after exactly `maxRetries` iterations and makes NO
further gateway call after hitting the bound: the run performs exactly
`maxRetries` ModelGateway invocations in total (the initial call plus
`maxRetries - 1` in-loop calls), every one of them tools-enabled.  There
is no final tools-disabled call, so the total is `maxRetries`, not
`maxRetries + 1`. -/
theorem chained_loop_bound_no_final_call (env : Chain.ChainEnv)
    (gw : Nat → Chain.Completion) (ms : List Chain.PMsg)
    (h : ∀ k, ((gw k).toolCalls).isSome = true) :
    (Chain.runChain env gw ms).2.2 = List.replicate Chain.maxRetries true := by
  unfold Chain.runChain
  rw [runChainAux_log env gw h Chain.maxRetries (by decide) (gw 0) (h 0) _ [true]]
  rfl

/-- Witness for C1 at a scripted gateway that always requests a tool
call. -/
theorem chained_loop_bound_no_final_call_witness :
    (∀ k, ((Chain.gwLoop k).toolCalls).isSome = true)
    ∧ (Chain.runChain Chain.envErr Chain.gwLoop []).2.2
        = List.replicate Chain.maxRetries true :=
  ⟨fun _ => rfl,
   chained_loop_bound_no_final_call Chain.envErr Chain.gwLoop [] (fun _ => rfl)⟩

/-- Counterexample for C1 as stated: against an always-tool-calling
scripted gateway the run makes exactly 5 gateway invocations, all
tools-enabled - not `maxRetries + 1 = 6`, and no tools-disabled final
call occurs. -/
theorem chained_loop_call_count_cex :
    (Chain.runChain Chain.envErr Chain.gwLoop []).2.2 = [true, true, true, true, true]
    ∧ (Chain.runChain Chain.envErr Chain.gwLoop []).2.2.length = Chain.maxRetries
    ∧ Chain.maxRetries ≠ Chain.maxRetries + 1 :=
  ⟨rfl, rfl, by decide⟩

/-- **C3 (amended).**  A below-threshold classification does not halt the
loop: processing of that one tool call is replaced by appending a single
below-threshold note tool message (and recording the parsed result), after
which the batch continues with the remaining sibling calls unchanged - the
detail-extraction stage is not structurally prevented from running. -/
theorem low_confidence_skips_only_that_call
    (env : Chain.ChainEnv) (st : Chain.BodyState) (tc : Chain.PToolCall)
    (rest : List Chain.PToolCall) (args : JVal) (result : Chain.ExecOut) (info : JVal)
    (hf : tc.isFunc = true)
    (hname : tc.name = "extractEventInfo")
    (hargs : tc.argsRaw = .ok args)
    (hexec : env.extractEventInfo (jGet args "message") = .ok result)
    (hparse : env.parseJson result.output_text = .ok info)
    (htruthy : jTruthy (some info) = true)
    (hlow : jLtNum (jGet info "confidenceScore") ratSevenTenths = true) :
    Chain.processToolCall env st tc =
      { st with trace := st.trace ++ ["extractEventInfo"],
                eventInfoResult := some info,
                msgs := st.msgs ++
                  [.tool tc.id (.okJsonNote result (jGet info "confidenceScore"))] }
    ∧ Chain.processBatch env st (tc :: rest)
        = Chain.processBatch env (Chain.processToolCall env st tc) rest := by
  refine ⟨?_, rfl⟩
  simp [Chain.processToolCall, Chain.executeFunction, Chain.effectiveArgs,
        hf, hname, hargs, hexec, hparse, htruthy, hlow]

/-- Witness for C3's amended statement at a concrete low-confidence run. -/
theorem low_confidence_skips_only_that_call_witness :
    jLtNum (jGet Chain.infoLow "confidenceScore") ratSevenTenths = true
    ∧ Chain.processToolCall Chain.envLow Chain.st0 Chain.tcInfo =
      { Chain.st0 with
          trace := Chain.st0.trace ++ ["extractEventInfo"],
          eventInfoResult := some Chain.infoLow,
          msgs := Chain.st0.msgs ++
            [.tool Chain.tcInfo.id
              (.okJsonNote ⟨"INFO_JSON"⟩ (jGet Chain.infoLow "confidenceScore"))] } :=
  ⟨rfl,
   (low_confidence_skips_only_that_call Chain.envLow Chain.st0 Chain.tcInfo []
      (.obj [("message", .str "hi")]) ⟨"INFO_JSON"⟩ Chain.infoLow
      rfl rfl rfl rfl rfl rfl rfl).1⟩

/-- Counterexample for C3 as stated: in a run whose classification comes
back with confidence 0.5 (below the 0.7 threshold - the below-threshold
note is recorded as the call's tool message), the detail-extraction
executor `extractEventDetails` is nevertheless invoked, because the model
requested it as a sibling call of the same batch and the loop only skips
the low-confidence call itself. -/
theorem low_confidence_details_still_invoked_cex :
    (Chain.runChain Chain.envLow Chain.gwLow []).2.1.trace
        = ["extractEventInfo", "extractEventDetails"]
    ∧ (Chain.runChain Chain.envLow Chain.gwLow []).2.1.msgs
        = [.assistant none [Chain.tcInfo, Chain.tcDetails],
           .tool "call_1" (.okJsonNote ⟨"INFO_JSON"⟩ (some (.num ratHalf))),
           .tool "call_2" (.okJson ⟨"DETAILS_JSON"⟩)] :=
  ⟨rfl, rfl⟩

/-- **C5 (amended, part 1: the chained loop).**  Inside the chained
workflow's loop a failing tool call - unknown tool name or a raising
executor - is converted into a single `Error:`-content tool message, the
loop state is otherwise unchanged, and the batch fold proceeds to the
sibling calls; the run does not abort. -/
theorem chained_tool_failure_isolated
    (env : Chain.ChainEnv) (st : Chain.BodyState) (tc : Chain.PToolCall)
    (rest : List Chain.PToolCall) (args : JVal) (e : String)
    (hf : tc.isFunc = true)
    (hargs : tc.argsRaw = .ok args)
    (hexec : Chain.executeFunction env tc.name (Chain.effectiveArgs st tc.name args)
      = .error e) :
    Chain.processToolCall env st tc =
      { st with trace := st.trace ++ [tc.name],
                msgs := st.msgs ++ [.tool tc.id (.errText ("Error: " ++ e))] }
    ∧ Chain.processBatch env st (tc :: rest)
        = Chain.processBatch env (Chain.processToolCall env st tc) rest := by
  refine ⟨?_, rfl⟩
  simp [Chain.processToolCall, hf, hargs, hexec]

/-- Witness for C5's amended statement: an unknown tool name fails only
that call. -/
theorem chained_tool_failure_isolated_witness :
    Chain.executeFunction Chain.envErr Chain.tcNope.name
        (Chain.effectiveArgs Chain.st0 Chain.tcNope.name (.obj []))
      = .error "Unknown function: unknownFn"
    ∧ Chain.processToolCall Chain.envErr Chain.st0 Chain.tcNope =
      { Chain.st0 with
          trace := Chain.st0.trace ++ [Chain.tcNope.name],
          msgs := Chain.st0.msgs ++
            [.tool Chain.tcNope.id (.errText ("Error: " ++ "Unknown function: unknownFn"))] } :=
  ⟨rfl,
   (chained_tool_failure_isolated Chain.envErr Chain.st0 Chain.tcNope [] (.obj [])
      "Unknown function: unknownFn" rfl rfl rfl).1⟩

/-- Counterexample for C5 as stated: in the weather tool route there is no
per-call catch - an unknown tool name aborts the whole batch (the error
escapes to the route-level catch) and the sibling `get_weather` call is
never dispatched. -/
theorem weather_tool_failure_aborts_cex :
    WeatherTool.processToolBatch WeatherTool.gwWX
        [WeatherTool.tcUnknown, WeatherTool.tcWeather] []
      = (.error "Unknown function: nope", ["nope"])
    ∧ "get_weather" ∉
        (WeatherTool.processToolBatch WeatherTool.gwWX
          [WeatherTool.tcUnknown, WeatherTool.tcWeather] []).2 :=
  ⟨rfl, by decide⟩

/-- **C7 (amended).**  After any tool-executing iteration the conversation
equals the previous messages, then the assistant message carrying the tool
calls, then exactly one `tool` message per `function`-type tool call, in
issue order and referencing the calls' ids - non-`function` calls are
skipped without a tool message; and across the whole loop messages are
only ever appended. -/
theorem chained_message_order (env : Chain.ChainEnv) :
    (∀ (st : Chain.BodyState) (content : Option String) (tcs : List Chain.PToolCall),
      ∃ L, (Chain.processBatch env
              { st with msgs := st.msgs ++ [Chain.PMsg.assistant content tcs] } tcs).msgs
            = st.msgs ++ Chain.PMsg.assistant content tcs :: L
        ∧ L.map Chain.toolKey = (tcs.filter (fun tc => tc.isFunc)).map (fun tc => tc.id)
        ∧ ∀ m ∈ L, Chain.isToolMsg m = true)
    ∧ (∀ (gw : Nat → Chain.Completion) (r : Nat) (c : Chain.Completion)
        (st : Chain.BodyState) (log : List Bool),
        ∃ suffix, (Chain.runChainAux env gw r c st log).2.1.msgs = st.msgs ++ suffix) := by
  constructor
  · intro st content tcs
    obtain ⟨L, h1, h2, h3⟩ := processBatch_msgs env tcs
      { st with msgs := st.msgs ++ [Chain.PMsg.assistant content tcs] }
    exact ⟨L, by simpa using h1, h2, h3⟩
  · exact fun gw r c st log => runChainAux_msgs_prefix env gw r c st log

/-- Counterexample for C7 as stated: a batch consisting of one
non-`function` tool call produces NO tool message at all - the iteration
appends only the assistant message, although one tool call was issued. -/
theorem nonfunction_call_no_tool_message_cex :
    (Chain.runChain Chain.envErr Chain.gwCustom []).2.1.msgs
        = [Chain.PMsg.assistant none [Chain.tcCustom]]
    ∧ [Chain.tcCustom] ≠ ([] : List Chain.PToolCall) :=
  ⟨rfl, by simp⟩

/-- **C2 (amended).**  Only the routed and parallel handlers reject empty
or whitespace-only user input before any model call (400 error, zero
gateway invocations); the single-call and chained handlers validate only
that `messages` is an array and invoke the gateway even when the user
content is whitespace-only. -/
theorem blank_input_rejection_split
    (extractEvent : String → Except String Routing.ClsOut)
    (newEvent modifyEvent : Routing.ClsOut → Except String JVal)
    (validateEvent checkSecurity : String → Except String JVal)
    (complete : List JVal → Except String (Option String))
    (env : Chain.ChainEnv) (gw : Nat → Chain.Completion) (body : JVal) (s : String) :
    (userInputOf body = some (.str s) → jsTrim s = "" →
      Routing.routingPOST extractEvent newEvent modifyEvent (.ok body)
          = (.response (.errorResp 400 "User input cannot be empty"), 0)
      ∧ Parallel.parallelPOST validateEvent checkSecurity (.ok body)
          = (.response (.errorResp 400 "Missing or invalid user input"), 0))
    ∧ (userInputOf body = none → body ≠ .null →
      Routing.routingPOST extractEvent newEvent modifyEvent (.ok body)
          = (.response (.errorResp 400
              "Missing required field userInput or messages with user content in request body"),
             0)
      ∧ Parallel.parallelPOST validateEvent checkSecurity (.ok body)
          = (.response (.errorResp 400 "Missing or invalid user input"), 0))
    ∧ (jTruthy (jGet body "messages") = true → jIsArray (jGet body "messages") = true →
      (Chat.chatPOST complete (.ok body)).2 = 1
      ∧ 1 ≤ (Chain.promptChainingPOST env gw (.ok body)).2) := by
  refine ⟨?_, ?_, ?_⟩
  · intro hu hs
    cases body with
    | null => simp [userInputOf, jGet, jTruthy] at hu
    | bool b => exact ⟨by simp [Routing.routingPOST, hu, hs],
        by simp [Parallel.parallelPOST, hu, hs]⟩
    | num n => exact ⟨by simp [Routing.routingPOST, hu, hs],
        by simp [Parallel.parallelPOST, hu, hs]⟩
    | str t => exact ⟨by simp [Routing.routingPOST, hu, hs],
        by simp [Parallel.parallelPOST, hu, hs]⟩
    | arr l => exact ⟨by simp [Routing.routingPOST, hu, hs],
        by simp [Parallel.parallelPOST, hu, hs]⟩
    | obj fs => exact ⟨by simp [Routing.routingPOST, hu, hs],
        by simp [Parallel.parallelPOST, hu, hs]⟩
  · intro hu hn
    cases body with
    | null => exact absurd rfl hn
    | bool b => exact ⟨by simp [Routing.routingPOST, hu],
        by simp [Parallel.parallelPOST, hu]⟩
    | num n => exact ⟨by simp [Routing.routingPOST, hu],
        by simp [Parallel.parallelPOST, hu]⟩
    | str t => exact ⟨by simp [Routing.routingPOST, hu],
        by simp [Parallel.parallelPOST, hu]⟩
    | arr l => exact ⟨by simp [Routing.routingPOST, hu],
        by simp [Parallel.parallelPOST, hu]⟩
    | obj fs => exact ⟨by simp [Routing.routingPOST, hu],
        by simp [Parallel.parallelPOST, hu]⟩
  · intro h1 h2
    cases body with
    | null => simp [jGet, jTruthy] at h1
    | bool b => simp [jGet, jTruthy] at h1
    | num n => simp [jGet, jTruthy] at h1
    | str t => simp [jGet, jTruthy] at h1
    | arr l => simp [jGet, jTruthy] at h1
    | obj fs =>
      constructor
      · cases hcomp : complete (jElems (jGet (.obj fs) "messages")) with
        | error e => simp [Chat.chatPOST, h1, h2, hcomp]
        | ok c => simp [Chat.chatPOST, h1, h2, hcomp]
      · simp only [Chain.promptChainingPOST, h1, h2]
        simp
        exact chain_calls_pos env gw _

/-- Witness for C2 at the whitespace-only body: the routing handler
rejects it with zero gateway calls. -/
theorem blank_input_rejection_split_witness :
    userInputOf wsBody = some (.str "   ")
    ∧ jsTrim "   " = ""
    ∧ Routing.routingPOST (fun _ => .error "x") (fun _ => .error "x") (fun _ => .error "x")
        (.ok wsBody) = (.response (.errorResp 400 "User input cannot be empty"), 0) :=
  ⟨rfl, rfl,
   ((blank_input_rejection_split (fun _ => .error "x") (fun _ => .error "x")
      (fun _ => .error "x") (fun _ => .error "x") (fun _ => .error "x")
      (fun _ => .error "x") Chain.envErr Chain.gwText wsBody "   ").1 rfl rfl).1⟩

/-- Counterexample for C2 as stated: the chained handler accepts the
whitespace-only user message and invokes the ModelGateway once. -/
theorem blank_input_chained_invokes_model_cex :
    (Chain.promptChainingPOST Chain.envErr Chain.gwText (.ok wsBody)).2 = 1
    ∧ (1 : Nat) ≠ 0 :=
  ⟨rfl, by decide⟩

/-- The chat handler never lets a fault escape. -/
theorem chatPOST_isResp (complete : List JVal → Except String (Option String))
    (pb : Except String JVal) : (Chat.chatPOST complete pb).1.isResp = true := by
  rcases pb with e | body
  · rfl
  · cases body <;> simp only [Chat.chatPOST] <;> (repeat' split) <;> rfl

/-- The routing handler never lets a fault escape. -/
theorem routingPOST_isResp (extractEvent : String → Except String Routing.ClsOut)
    (newEvent modifyEvent : Routing.ClsOut → Except String JVal)
    (pb : Except String JVal) :
    (Routing.routingPOST extractEvent newEvent modifyEvent pb).1.isResp = true := by
  rcases pb with e | body
  · rfl
  · cases body <;> simp only [Routing.routingPOST] <;> (repeat' split) <;> rfl

/-- The parallelization handler never lets a fault escape. -/
theorem parallelPOST_isResp (validateEvent checkSecurity : String → Except String JVal)
    (pb : Except String JVal) :
    (Parallel.parallelPOST validateEvent checkSecurity pb).1.isResp = true := by
  rcases pb with e | body
  · rfl
  · cases body <;> simp only [Parallel.parallelPOST] <;> (repeat' split) <;> rfl

/-- The weather tool handler never lets a fault escape. -/
theorem toolPOST_isResp (gw : Option JVal → Option JVal → Except String JVal)
    (c1 : Except String WeatherTool.WCompletion) (c2 : Except String (Option String))
    (pb : Except String JVal) :
    (WeatherTool.toolPOST gw c1 c2 pb).1.isResp = true := by
  rcases pb with e | body
  · rfl
  · cases body <;> simp only [WeatherTool.toolPOST] <;> (repeat' split) <;> rfl

/-- The knowledge-base handler never lets a fault escape. -/
theorem kbPOST_isResp (kb : Option (List KB.KBRecord)) (c1 : Except String KB.KCompletion)
    (c2 : Except String (Option String)) (pb : Except String JVal) :
    (KB.kbPOST kb c1 c2 pb).1.isResp = true := by
  rcases pb with e | body
  · rfl
  · cases body <;> simp only [KB.kbPOST] <;> (repeat' split) <;> rfl

/-- The chained handler escapes exactly on a bad body (malformed JSON or
JSON `null`). -/
theorem chainPOST_thrown_iff (env : Chain.ChainEnv) (gw : Nat → Chain.Completion)
    (pb : Except String JVal) :
    (Chain.promptChainingPOST env gw pb).1.isResp = !(pbBad pb) := by
  rcases pb with e | body
  · rfl
  · cases body <;> simp only [Chain.promptChainingPOST] <;> (repeat' split) <;> rfl

/-- **C8 (amended).**  Every handler except the chained one parses the
request body inside its `try`/`catch` and therefore always returns a
well-formed structured payload, whatever the input; the chained handler
parses the body OUTSIDE its `try` block, so a malformed JSON body (or a
JSON `null` body, whose destructuring throws) escapes it as a raw
unhandled fault - and those are the only inputs that do. -/
theorem handlers_respond_except_chained_parse
    (complete : List JVal → Except String (Option String))
    (extractEvent : String → Except String Routing.ClsOut)
    (newEvent modifyEvent : Routing.ClsOut → Except String JVal)
    (validateEvent checkSecurity : String → Except String JVal)
    (wgw : Option JVal → Option JVal → Except String JVal)
    (wc1 : Except String WeatherTool.WCompletion) (wc2 : Except String (Option String))
    (kb : Option (List KB.KBRecord)) (kc1 : Except String KB.KCompletion)
    (kc2 : Except String (Option String))
    (env : Chain.ChainEnv) (cgw : Nat → Chain.Completion)
    (pb : Except String JVal) :
    (Chat.chatPOST complete pb).1.isResp = true
    ∧ (Routing.routingPOST extractEvent newEvent modifyEvent pb).1.isResp = true
    ∧ (Parallel.parallelPOST validateEvent checkSecurity pb).1.isResp = true
    ∧ (WeatherTool.toolPOST wgw wc1 wc2 pb).1.isResp = true
    ∧ (KB.kbPOST kb kc1 kc2 pb).1.isResp = true
    ∧ (Chain.promptChainingPOST env cgw pb).1.isResp = !(pbBad pb) :=
  ⟨chatPOST_isResp complete pb,
   routingPOST_isResp extractEvent newEvent modifyEvent pb,
   parallelPOST_isResp validateEvent checkSecurity pb,
   toolPOST_isResp wgw wc1 wc2 pb,
   kbPOST_isResp kb kc1 kc2 pb,
   chainPOST_thrown_iff env cgw pb⟩

/-- Counterexample for C8 as stated: a malformed JSON body makes the
chained handler itself throw - the caller gets a raw unhandled fault, not
a structured payload. -/
theorem chained_malformed_body_escapes_cex :
    (Chain.promptChainingPOST Chain.envErr Chain.gwText
        (.error "Unexpected token u in JSON")).1
      = .thrown "Unexpected token u in JSON"
    ∧ (Chain.promptChainingPOST Chain.envErr Chain.gwText
        (.error "Unexpected token u in JSON")).1.isResp = false :=
  ⟨rfl, rfl⟩
